import Mathlib

/-!
Shallow embedding of the data-preparation and filtering pipeline shared by
`src/EDA.py` and `src/dashboard.py` of the GB bicycle-accidents repository.

The pipeline is: read the two CSV tables, inner-merge them on
`Accident_Index`, convert the `Date` column with `pd.to_datetime` (default
`errors` mode, which raises on an unparseable value), derive `Year`, `Month`,
`Hour` (from `Time` with `format` `%H:%M` and `errors` mode `coerce`, which
yields null on failure) and `Weekday` (`dt.day_name()`).  The dashboard then
filters the canonical table by a year range and `isin` tests on the
`Severity`, `Gender`, `Weather_conditions` and `Age_Grp` columns, and computes
summary metrics guarded for the empty case.

Tables are lists of records; a pandas null (NaN/NaT) in a column is `none`.
`pd.to_datetime` on the `Date` column is modelled for ISO `YYYY-MM-DD` date
strings; a column that already holds datetimes is passed through unchanged,
matching pandas' behaviour on a datetime64 column.
-/

namespace GBAccidents

/-- A calendar date, the result of a successful `pd.to_datetime` conversion. -/
structure Date where
  year : Nat
  month : Nat
  day : Nat
deriving DecidableEq, Repr

/-- Days in a month, with the Gregorian leap-year rule (as pandas validates). -/
def daysInMonth (y m : Nat) : Nat :=
  if m = 2 then
    if y % 4 = 0 ∧ (y % 100 ≠ 0 ∨ y % 400 = 0) then 29 else 28
  else if m = 4 ∨ m = 6 ∨ m = 9 ∨ m = 11 then 30
  else 31

/-- Split a character list on a separator character (the groups between
separator occurrences, in order); the list always has at least one group. -/
def splitOnChar (c : Char) : List Char → List (List Char)
  | [] => [[]]
  | a :: rest =>
    match splitOnChar c rest with
    | [] => [[a]]
    | g :: gs => if a == c then [] :: g :: gs else (a :: g) :: gs

/-- The value of a run of decimal digits. -/
def digitsVal (cs : List Char) : Nat :=
  cs.foldl (fun n c => n * 10 + (c.toNat - 48)) 0

/-- Decimal parsing of one field: a non-empty run of digits, else failure. -/
def parseNatField (cs : List Char) : Option Nat :=
  if cs ≠ [] ∧ cs.all Char.isDigit then some (digitsVal cs) else none

/-- `pd.to_datetime` on a single date string, modelled for the ISO
`YYYY-MM-DD` format: three dash-separated decimal components forming a valid
calendar date; anything else fails to parse. -/
def parseDate (s : String) : Option Date :=
  match splitOnChar '-' s.toList with
  | [ys, ms, ds] =>
    match parseNatField ys, parseNatField ms, parseNatField ds with
    | some y, some m, some d =>
      if 1 ≤ m ∧ m ≤ 12 ∧ 1 ≤ d ∧ d ≤ daysInMonth y m then some ⟨y, m, d⟩ else none
    | _, _, _ => none
  | _ => none

/-- Day of week for a Gregorian date by Sakamoto's method; 0 is Sunday. -/
def dayOfWeek (dt : Date) : Nat :=
  let t := [0, 3, 2, 5, 0, 3, 5, 1, 4, 6, 2, 4]
  let y := if dt.month < 3 then dt.year - 1 else dt.year
  (y + y / 4 - y / 100 + y / 400 + t.getD (dt.month - 1) 0 + dt.day) % 7

/-- `dt.day_name()`: the full English weekday name. -/
def dayName (dt : Date) : String :=
  ["Sunday", "Monday", "Tuesday", "Wednesday", "Thursday", "Friday",
   "Saturday"].getD (dayOfWeek dt) "Sunday"

/-- `pd.to_datetime(·, format=%H:%M, errors=coerce)` followed by `.dt.hour` on
one time string: one or two hour digits, a colon, one or two minute digits,
within range; failure yields `none` (NaT/null), matching the coerce mode. -/
def parseTimeHour (s : String) : Option Nat :=
  match splitOnChar ':' s.toList with
  | [hs, ms] =>
    match parseNatField hs, parseNatField ms with
    | some h, some m =>
      if hs.length ≤ 2 ∧ ms.length ≤ 2 ∧ h ≤ 23 ∧ m ≤ 59 then some h else none
    | _, _ => none
  | _ => none

/-- A cell of the `Date` column: a raw string before conversion, or a
datetime after `pd.to_datetime` has run (the column is reassigned in place by
`df[Date] = pd.to_datetime(df[Date])`). -/
inductive DateCell where
  | str (s : String)
  | dt (d : Date)
deriving DecidableEq, Repr

/-- `pd.to_datetime` on one `Date` cell: a string is parsed, a datetime is
passed through unchanged. -/
def toDatetime : DateCell → Option Date
  | .str s => parseDate s
  | .dt d => some d

/-- One row of `Accidents.csv` (the columns the pipeline reads). -/
structure Accident where
  accidentIndex : String
  date : String
  time : Option String
  severity : Option String
  numberOfVehicles : Nat
  numberOfCasualties : Nat
  weather : Option String
deriving DecidableEq, Repr

/-- One row of `Bikers.csv` (the columns the pipeline reads). -/
structure Biker where
  accidentIndex : String
  gender : Option String
  ageGrp : Option String
deriving DecidableEq, Repr

/-- One row of the canonical table: the merged columns of both sources, with
a single `Accident_Index` key column, plus the derived columns (`none` before
derivation has run). -/
structure Row where
  accidentIndex : String
  date : DateCell
  time : Option String
  severity : Option String
  numberOfVehicles : Nat
  numberOfCasualties : Nat
  weather : Option String
  gender : Option String
  ageGrp : Option String
  year : Option Nat
  month : Option Nat
  hour : Option Nat
  weekday : Option String
deriving DecidableEq, Repr

/-- The merged row built from one accident row and one matching biker row:
columns from both sides, the key column not duplicated, derived columns not
yet populated. -/
def mergeRow (a : Accident) (b : Biker) : Row :=
  { accidentIndex := a.accidentIndex
    date := .str a.date
    time := a.time
    severity := a.severity
    numberOfVehicles := a.numberOfVehicles
    numberOfCasualties := a.numberOfCasualties
    weather := a.weather
    gender := b.gender
    ageGrp := b.ageGrp
    year := none, month := none, hour := none, weekday := none }

/-- `pd.merge(accidents, bikers, on=Accident_Index, how=inner)`: for each
accident row in order, one output row per biker row with the same key. -/
def merge (accidents : List Accident) (bikers : List Biker) : List Row :=
  (accidents.map fun a =>
    (bikers.filter fun b => b.accidentIndex == a.accidentIndex).map
      (mergeRow a)).flatten

/-- The field-derivation step on one row: convert the `Date` cell (failure
propagates, since `pd.to_datetime` raises in its default mode), then derive
`Year`, `Month`, `Weekday` from the converted date and `Hour` from the raw
`Time` string under the coerce mode. -/
def deriveRow (r : Row) : Option Row :=
  match toDatetime r.date with
  | none => none
  | some d =>
    some { r with
      date := .dt d
      year := some d.year
      month := some d.month
      hour := r.time.bind parseTimeHour
      weekday := some (dayName d) }

/-- The field-derivation step on the whole table: it succeeds only when every
row's date converts; one unparseable date aborts the whole step, as
`pd.to_datetime` with its default `errors` mode raises an exception. -/
def deriveFields : List Row → Option (List Row)
  | [] => some []
  | r :: rs =>
    match deriveRow r with
    | none => none
    | some r' =>
      match deriveFields rs with
      | none => none
      | some rs' => some (r' :: rs')

/-- `load_data` without the file I/O: merge the two tables, then derive the
temporal fields; `none` models the exception path. -/
def load_data (accidents : List Accident) (bikers : List Biker) :
    Option (List Row) :=
  deriveFields (merge accidents bikers)

/-- A sidebar filter configuration: the year-range slider and the four
multiselect widgets.  A selected set is a list of column values; it may
contain `none`, matching pandas `isin`, under which a NaN cell is a member of
a value list that itself contains NaN. -/
structure FilterConfig where
  yearMin : Nat
  yearMax : Nat
  severity : List (Option String)
  gender : List (Option String)
  weather : List (Option String)
  ageGroups : List (Option String)

/-- The boolean mask of the `filtered` expression for one row: the conjunction
of the inclusive year-range comparisons (false on a null year, as a pandas
comparison with NaN is) and the four `isin` membership tests. -/
def rowPasses (cfg : FilterConfig) (r : Row) : Bool :=
  (r.year.any fun y => cfg.yearMin ≤ y && y ≤ cfg.yearMax) &&
  cfg.severity.contains r.severity &&
  cfg.gender.contains r.gender &&
  cfg.weather.contains r.weather &&
  cfg.ageGroups.contains r.ageGrp

/-- `filtered = df[mask]`: the subsequence of canonical rows whose mask is
true. -/
def filtered (cfg : FilterConfig) (rows : List Row) : List Row :=
  rows.filter (rowPasses cfg)

/-- `fatal = len(filtered[filtered[Severity] == Fatal])`. -/
def fatalCount (rows : List Row) : Nat :=
  (rows.filter fun r => r.severity == some "Fatal").length

/-- `fatality_rate = (fatal / len(filtered) * 100) if len(filtered) > 0 else 0`. -/
def fatality_rate (rows : List Row) : ℚ :=
  if 0 < rows.length then (fatalCount rows : ℚ) / (rows.length : ℚ) * 100 else 0

/-- `avg_casualties = filtered[Number_of_Casualties].mean() if len(filtered) > 0 else 0`. -/
def avg_casualties (rows : List Row) : ℚ :=
  if 0 < rows.length then
    ((rows.map fun r => (r.numberOfCasualties : ℚ)).sum) / (rows.length : ℚ)
  else 0

/-- Following the spec's words, not the source: the mean over an empty table
is an explicit undefined/null value, never an arithmetic exception.  Compared
against `avg_casualties`, the definition taken from the source. -/
def avg_casualties_spec (rows : List Row) : Option ℚ :=
  if 0 < rows.length then
    some (((rows.map fun r => (r.numberOfCasualties : ℚ)).sum) / (rows.length : ℚ))
  else none

/-- The number of rows of `vals` holding the non-null value `s`; `s` appears
in `value_counts()` of `vals` exactly when this is positive. -/
def countValue (vals : List (Option String)) (s : String) : Nat :=
  vals.count (some s)

/-- `value_counts().reindex(domain)`: one labelled entry per domain element in
domain order; a label present in the counts index carries its count, a label
absent from it (zero matching rows) carries null (NaN), since `reindex` is
given no fill value here. -/
def reindexCounts (vals : List (Option String)) (domain : List String) :
    List (String × Option Nat) :=
  domain.map fun s =>
    (s, if 0 < countValue vals s then some (countValue vals s) else none)

/-- `day_order` of the dashboard's weekly-pattern panel. -/
def day_order : List String :=
  ["Monday", "Tuesday", "Wednesday", "Thursday", "Friday", "Saturday", "Sunday"]

/-- `severity_order` of the EDA severity bar chart. -/
def severity_order : List String := ["Fatal", "Serious", "Slight"]

/-- `filtered[Weekday].value_counts().reindex(day_order)`. -/
def weekdayCounts (rows : List Row) : List (String × Option Nat) :=
  reindexCounts (rows.map fun r => r.weekday) day_order

/-- `df[Severity].value_counts().reindex(severity_order)`. -/
def severityCounts (rows : List Row) : List (String × Option Nat) :=
  reindexCounts (rows.map fun r => r.severity) severity_order

/-! ### Fixture data used by witnesses and counterexamples -/

/-- A well-formed accident row. -/
def exAccident : Accident :=
  { accidentIndex := "A1", date := "2015-05-13", time := some "07:30",
    severity := some "Fatal", numberOfVehicles := 2, numberOfCasualties := 1,
    weather := some "Clear" }

/-- A biker row matching `exAccident`. -/
def exBiker : Biker :=
  { accidentIndex := "A1", gender := some "Male", ageGrp := some "26 to 35" }

/-- An accident row whose date is not in the recognised format. -/
def exAccidentBadDate : Accident :=
  { exAccident with accidentIndex := "A2", date := "13/05/2015" }

/-- A biker row matching `exAccidentBadDate`. -/
def exBiker2 : Biker :=
  { accidentIndex := "A2", gender := some "Female", ageGrp := some "36 to 45" }

/-- The merged row of `exAccident` and `exBiker` after field derivation. -/
def exDerived : Row :=
  { accidentIndex := "A1", date := .dt ⟨2015, 5, 13⟩, time := some "07:30",
    severity := some "Fatal", numberOfVehicles := 2, numberOfCasualties := 1,
    weather := some "Clear", gender := some "Male", ageGrp := some "26 to 35",
    year := some 2015, month := some 5, hour := some 7,
    weekday := some "Wednesday" }

/-- The merged row of `exAccident` and `exBiker` with a malformed time. -/
def exMergedBadTime : Row :=
  { mergeRow exAccident exBiker with time := some "7h30" }

/-- A derived row carrying a null gender. -/
def exRowNullGender : Row := { exDerived with gender := none }

/-- A filter configuration whose severity selection is empty. -/
def exCfgEmptySev : FilterConfig :=
  { yearMin := 2010, yearMax := 2018, severity := [],
    gender := [some "Male"], weather := [some "Clear"],
    ageGroups := [some "26 to 35"] }

/-- A filter configuration with every dimension selected, null in none. -/
def exCfgFull : FilterConfig :=
  { yearMin := 2010, yearMax := 2018,
    severity := [some "Fatal", some "Serious", some "Slight"],
    gender := [some "Male", some "Female"], weather := [some "Clear"],
    ageGroups := [some "26 to 35"] }

/-! ### Helper lemmas -/

/-- The filter mask holds for a row exactly when the year is non-null and in
range and each categorical value is a member of its selected set. -/
lemma rowPasses_iff (cfg : FilterConfig) (r : Row) :
    rowPasses cfg r = true ↔
      (∃ y, r.year = some y ∧ cfg.yearMin ≤ y ∧ y ≤ cfg.yearMax) ∧
      r.severity ∈ cfg.severity ∧ r.gender ∈ cfg.gender ∧
      r.weather ∈ cfg.weather ∧ r.ageGrp ∈ cfg.ageGroups := by
  cases hy : r.year with
  | none => simp [rowPasses, hy]
  | some y => simp [rowPasses, hy, and_assoc]

/-- A row already carrying a converted date cell rederives to itself. -/
lemma deriveRow_idem (r r' : Row) (h : deriveRow r = some r') :
    deriveRow r' = some r' := by
  unfold deriveRow at h ⊢
  cases hd : toDatetime r.date with
  | none => rw [hd] at h; exact absurd h (by simp)
  | some d =>
    rw [hd] at h
    obtain rfl := Option.some.inj h
    rfl

/-! ### Claim theorems -/

/-- Claim C1: a row appears in the Filter Engine's output iff it belongs to
the canonical table, its year lies within the inclusive range, and its
severity, gender, weather and age-group values are each members of the
corresponding selected set — conjunction across dimensions, membership
within each dimension. -/
theorem filtered_mem_iff_conjunction (cfg : FilterConfig) (rows : List Row)
    (r : Row) :
    r ∈ filtered cfg rows ↔
      r ∈ rows ∧
        ((∃ y, r.year = some y ∧ cfg.yearMin ≤ y ∧ y ≤ cfg.yearMax) ∧
          r.severity ∈ cfg.severity ∧ r.gender ∈ cfg.gender ∧
          r.weather ∈ cfg.weather ∧ r.ageGrp ∈ cfg.ageGroups) := by
  rw [filtered, List.mem_filter, rowPasses_iff]

/-- Claim C3: if any dimension's selected set is empty, the Filter Engine
returns the empty table, whatever the other dimensions select. -/
theorem filtered_empty_dim_eq_nil (cfg : FilterConfig) (rows : List Row)
    (h : cfg.severity = [] ∨ cfg.gender = [] ∨ cfg.weather = [] ∨
      cfg.ageGroups = []) :
    filtered cfg rows = [] := by
  rw [filtered, List.filter_eq_nil_iff]
  intro r hr
  rcases h with h | h | h | h <;> simp [rowPasses, h]

/-- Witness for C3 at a configuration with an empty severity set. -/
theorem filtered_empty_dim_eq_nil_wit :
    (exCfgEmptySev.severity = [] ∨ exCfgEmptySev.gender = [] ∨
      exCfgEmptySev.weather = [] ∨ exCfgEmptySev.ageGroups = []) ∧
    filtered exCfgEmptySev [exDerived] = [] :=
  ⟨Or.inl rfl, filtered_empty_dim_eq_nil exCfgEmptySev [exDerived] (Or.inl rfl)⟩

/-- Claim C8: a row carrying a null value in a filtered dimension is excluded
from the Filter Engine's output unless null is itself a member of that
dimension's selected set, matching pandas `isin` treatment of NaN. -/
theorem filtered_null_excluded (cfg : FilterConfig) (rows : List Row) (r : Row)
    (h : (r.severity = none ∧ none ∉ cfg.severity) ∨
      (r.gender = none ∧ none ∉ cfg.gender) ∨
      (r.weather = none ∧ none ∉ cfg.weather) ∨
      (r.ageGrp = none ∧ none ∉ cfg.ageGroups)) :
    r ∉ filtered cfg rows := by
  intro hmem
  rw [filtered, List.mem_filter, rowPasses_iff] at hmem
  obtain ⟨-, -, hs, hg, hw, ha⟩ := hmem
  rcases h with ⟨h1, h2⟩ | ⟨h1, h2⟩ | ⟨h1, h2⟩ | ⟨h1, h2⟩
  · exact h2 (h1 ▸ hs)
  · exact h2 (h1 ▸ hg)
  · exact h2 (h1 ▸ hw)
  · exact h2 (h1 ▸ ha)

/-- Witness for C8 at a row with a null gender and a selection without null. -/
theorem filtered_null_excluded_wit :
    ((exRowNullGender.severity = none ∧ none ∉ exCfgFull.severity) ∨
      (exRowNullGender.gender = none ∧ none ∉ exCfgFull.gender) ∨
      (exRowNullGender.weather = none ∧ none ∉ exCfgFull.weather) ∨
      (exRowNullGender.ageGrp = none ∧ none ∉ exCfgFull.ageGroups)) ∧
    exRowNullGender ∉ filtered exCfgFull [exRowNullGender] :=
  ⟨Or.inr (Or.inl ⟨rfl, by decide⟩),
    filtered_null_excluded exCfgFull [exRowNullGender] exRowNullGender
      (Or.inr (Or.inl ⟨rfl, by decide⟩))⟩

/-- Claim C9: the Filter Engine is pure — its output is a subsequence of the
untouched canonical table (the table itself is never rebuilt or mutated; the
embedding is a function of its arguments, so the canonical table after
filtering is definitionally the table before), and two applications to
identical arguments are structurally equal. -/
theorem filtered_pure (cfg : FilterConfig) (rows : List Row) :
    (filtered cfg rows).Sublist rows ∧ filtered cfg rows = filtered cfg rows :=
  ⟨List.filter_sublist rows, rfl⟩

/-- Claim C5: every row of the inner merge comes from one accident row and
one biker row sharing the same `Accident_Index`; its single key column equals
that shared key (so no output row references a key absent from either
source), and its columns are the merged columns of those two source rows. -/
theorem merge_mem_key_in_both (A : List Accident) (B : List Biker) (r : Row)
    (h : r ∈ merge A B) :
    ∃ a, a ∈ A ∧ ∃ b, b ∈ B ∧ a.accidentIndex = b.accidentIndex ∧
      r = mergeRow a b ∧ r.accidentIndex = a.accidentIndex ∧
      r.accidentIndex = b.accidentIndex := by
  simp only [merge, List.mem_flatten, List.mem_map, List.mem_filter] at h
  obtain ⟨l, ⟨a, ha, rfl⟩, hr⟩ := h
  obtain ⟨b, hb', rfl⟩ := List.mem_map.mp hr
  obtain ⟨hb, hkey⟩ := List.mem_filter.mp hb'
  have hk : b.accidentIndex = a.accidentIndex := beq_iff_eq.mp hkey
  exact ⟨a, ha, b, hb, hk.symm, rfl, rfl, hk.symm⟩

/-- Witness for C5 at one matching accident/biker pair. -/
theorem merge_mem_key_in_both_wit :
    mergeRow exAccident exBiker ∈ merge [exAccident] [exBiker] ∧
    (∃ a, a ∈ [exAccident] ∧ ∃ b, b ∈ [exBiker] ∧
      a.accidentIndex = b.accidentIndex ∧
      mergeRow exAccident exBiker = mergeRow a b ∧
      (mergeRow exAccident exBiker).accidentIndex = a.accidentIndex ∧
      (mergeRow exAccident exBiker).accidentIndex = b.accidentIndex) :=
  ⟨by decide,
    merge_mem_key_in_both [exAccident] [exBiker] (mergeRow exAccident exBiker)
      (by decide)⟩

/-- Claim C7: the Field Deriver is idempotent — when derivation of a table
succeeds, rederiving the derived table succeeds and returns it unchanged,
since every derived column is recomputed from the date/time source columns. -/
theorem deriveFields_idempotent (rows rows' : List Row)
    (h : deriveFields rows = some rows') :
    deriveFields rows' = some rows' := by
  induction rows generalizing rows' with
  | nil =>
    obtain rfl := Option.some.inj h
    rfl
  | cons r rs ih =>
    unfold deriveFields at h
    cases hr : deriveRow r with
    | none => rw [hr] at h; exact absurd h (by simp)
    | some r0 =>
      rw [hr] at h
      cases hrs : deriveFields rs with
      | none => rw [hrs] at h; exact absurd h (by simp)
      | some rs0 =>
        rw [hrs] at h
        obtain rfl := Option.some.inj h
        simp only [deriveFields, deriveRow_idem r r0 hr, ih rs0 hrs]

/-- Witness for C7 at a one-row table. -/
theorem deriveFields_idempotent_wit :
    deriveFields [mergeRow exAccident exBiker] = some [exDerived] ∧
    deriveFields [exDerived] = some [exDerived] :=
  ⟨by decide,
    deriveFields_idempotent [mergeRow exAccident exBiker] [exDerived]
      (by decide)⟩

/-- Claim C10: in any table the derivation step actually returns, the derived
`Year`, `Month` and `Weekday` columns are non-null in every row — the date
conversion either succeeds for all rows or aborts the load, so no null date
derivatives ever reach the canonical table; only `Hour` can be null. -/
theorem deriveFields_date_fields_nonnull (rows rows' : List Row)
    (h : deriveFields rows = some rows') :
    ∀ r' ∈ rows', r'.year.isSome ∧ r'.month.isSome ∧ r'.weekday.isSome := by
  induction rows generalizing rows' with
  | nil =>
    obtain rfl := Option.some.inj h
    intro r' hr'
    exact absurd hr' (List.not_mem_nil r')
  | cons r rs ih =>
    unfold deriveFields at h
    cases hr : deriveRow r with
    | none => rw [hr] at h; exact absurd h (by simp)
    | some r0 =>
      rw [hr] at h
      cases hrs : deriveFields rs with
      | none => rw [hrs] at h; exact absurd h (by simp)
      | some rs0 =>
        rw [hrs] at h
        obtain rfl := Option.some.inj h
        intro r' hr'
        rcases List.mem_cons.mp hr' with rfl | hmem
        · unfold deriveRow at hr
          cases hd : toDatetime r.date with
          | none => rw [hd] at hr; exact absurd hr (by simp)
          | some d =>
            rw [hd] at hr
            obtain rfl := Option.some.inj hr
            exact ⟨rfl, rfl, rfl⟩
        · exact ih rs0 hrs r' hmem

/-- Witness for C10 at a one-row table. -/
theorem deriveFields_date_fields_nonnull_wit :
    deriveFields [mergeRow exAccident exBiker] = some [exDerived] ∧
    (exDerived.year.isSome ∧ exDerived.month.isSome ∧
      exDerived.weekday.isSome) :=
  ⟨by decide,
    deriveFields_date_fields_nonnull [mergeRow exAccident exBiker] [exDerived]
      (by decide) exDerived (by decide)⟩

/-- Counterexample to claim C2 as stated: one row with an unparseable date
makes the whole derivation step fail — the row is not retained with null
derived fields, and even the well-formed rows of the table are lost — whereas
adding no such row loads fine.  The `Date` conversion runs in the raising
mode, unlike the `Time` conversion. -/
theorem load_data_aborts_on_bad_date :
    load_data [exAccidentBadDate, exAccident] [exBiker, exBiker2] = none ∧
    (load_data [exAccident] [exBiker]).isSome :=
  by decide

/-- Claim C2 amended: only a TIME parse failure is local to its row — when
every date converts, the pipeline succeeds, every row is retained in order
with its non-derived columns unchanged, and `Hour` is exactly the result of
parsing that row's time (null when the time is not `HH:MM`); an unparseable
DATE instead aborts the whole load. -/
theorem deriveFields_time_failure_local (rows : List Row)
    (h : ∀ r ∈ rows, (toDatetime r.date).isSome) :
    ∃ rows', deriveFields rows = some rows' ∧
      List.Forall₂ (fun r r' : Row =>
        r'.accidentIndex = r.accidentIndex ∧ r'.time = r.time ∧
        r'.severity = r.severity ∧ r'.gender = r.gender ∧
        r'.ageGrp = r.ageGrp ∧ r'.weather = r.weather ∧
        r'.numberOfCasualties = r.numberOfCasualties ∧
        r'.hour = r.time.bind parseTimeHour) rows rows' := by
  induction rows with
  | nil => exact ⟨[], rfl, .nil⟩
  | cons r rs ih =>
    obtain ⟨d, hd⟩ :=
      Option.isSome_iff_exists.mp (h r (List.mem_cons_self r rs))
    obtain ⟨rs', hrs, hf⟩ := ih fun x hx => h x (List.mem_cons_of_mem r hx)
    refine ⟨{ r with
                date := .dt d, year := some d.year, month := some d.month,
                hour := r.time.bind parseTimeHour,
                weekday := some (dayName d) } :: rs', ?_, ?_⟩
    · simp only [deriveFields, deriveRow, hd, hrs]
    · exact List.Forall₂.cons ⟨rfl, rfl, rfl, rfl, rfl, rfl, rfl, rfl⟩ hf

/-- Witness for the amended C2 at a one-row table with a malformed time. -/
theorem deriveFields_time_failure_local_wit :
    (∀ r ∈ [exMergedBadTime], (toDatetime r.date).isSome) ∧
    (∃ rows', deriveFields [exMergedBadTime] = some rows' ∧
      List.Forall₂ (fun r r' : Row =>
        r'.accidentIndex = r.accidentIndex ∧ r'.time = r.time ∧
        r'.severity = r.severity ∧ r'.gender = r.gender ∧
        r'.ageGrp = r.ageGrp ∧ r'.weather = r.weather ∧
        r'.numberOfCasualties = r.numberOfCasualties ∧
        r'.hour = r.time.bind parseTimeHour) [exMergedBadTime] rows') :=
  ⟨by decide, deriveFields_time_failure_local [exMergedBadTime] (by decide)⟩

/-- Counterexample to claim C4 as stated: over the empty filtered table the
dashboard's mean-casualties metric evaluates to the number 0 through its
explicit emptiness guard — not to an explicit undefined/null value as the
claim demands (`avg_casualties_spec`, written from the claim's words, is
null there, so the reported value differs from the claimed one). -/
theorem avg_casualties_empty_zero_not_null :
    avg_casualties ([] : List Row) = 0 ∧
    avg_casualties_spec ([] : List Row) = none ∧
    some (avg_casualties ([] : List Row)) ≠ avg_casualties_spec ([] : List Row) :=
  ⟨rfl, rfl, fun hc => Option.noConfusion hc⟩

/-- Claim C4 amended: when the filtered table has zero rows, the dependent
metrics are still defined and never raise — both the fatality rate and the
mean casualties are reported as 0 through their emptiness guards (the mean is
reported as 0, not as a null value). -/
theorem empty_filtered_metrics (cfg : FilterConfig) (rows : List Row)
    (h : (filtered cfg rows).length = 0) :
    fatality_rate (filtered cfg rows) = 0 ∧
    avg_casualties (filtered cfg rows) = 0 := by
  constructor <;> simp [fatality_rate, avg_casualties, h]

/-- Witness for the amended C4 at an empty table. -/
theorem empty_filtered_metrics_wit :
    (filtered exCfgEmptySev ([] : List Row)).length = 0 ∧
    (fatality_rate (filtered exCfgEmptySev ([] : List Row)) = 0 ∧
      avg_casualties (filtered exCfgEmptySev ([] : List Row)) = 0) :=
  ⟨rfl, empty_filtered_metrics exCfgEmptySev [] rfl⟩

/-- Counterexample to claim C6 as stated: reindexing the severity counts of a
table holding one Fatal row against the three-severity domain leaves the two
absent groups null (NaN) — `reindex` is called without a fill value — not
zero as the claim states. -/
theorem severityCounts_missing_group_null :
    severityCounts [mergeRow exAccident exBiker] =
      [("Fatal", some 1), ("Serious", none), ("Slight", none)] ∧
    ("Serious", some 0) ∉ severityCounts [mergeRow exAccident exBiker] :=
  by decide

/-- Claim C6 amended: reindexing a grouped count against a known domain gives
every domain label an entry, and a label whose group has zero matching rows
is filled with null (NaN), not zero. -/
theorem reindex_zero_group_null (vals : List (Option String))
    (domain : List String) (s : String) (hs : s ∈ domain)
    (h0 : countValue vals s = 0) :
    (s, (none : Option Nat)) ∈ reindexCounts vals domain := by
  unfold reindexCounts
  refine List.mem_map.mpr ⟨s, hs, ?_⟩
  simp [h0]

/-- Witness for the amended C6: no Saturday rows, reindexed over the week. -/
theorem reindex_zero_group_null_wit :
    ("Saturday" ∈ day_order ∧ countValue [some "Monday"] "Saturday" = 0) ∧
    ("Saturday", (none : Option Nat)) ∈ reindexCounts [some "Monday"] day_order :=
  ⟨⟨by decide, by decide⟩,
    reindex_zero_group_null [some "Monday"] day_order "Saturday"
      (by decide) (by decide)⟩

end GBAccidents
